import Mathlib

/-!
# EasySwap (Web3-NFTMarket): order model, sync service start-up, daemon and backend entry points

Shallow embedding of

* `EasySwapBase/stores/gdb/orderbookmodel/multi/order.go`
* `EasySwapSync/service/service.go`
* `EasySwapSync/cmd/daemon.go`
* `EasySwapBackend/src/main.go`, `EasySwapBackend/src/service/svc/context.go`

Go `int`/`int64` values are modelled as `Int` (no arithmetic is performed on them
in the embedded code, only comparisons), Go strings as `String`, Go `error`
values as `Option GoError` (`none` is `nil`).  Calls into packages whose source
is not part of the embedded files are parameters of the embedding.
-/

namespace EasySwap

/-! ## order.go -/

namespace multi

def OrderStatusActive : Int := 0
def OrderStatusInactive : Int := 1
def OrderStatusExpired : Int := 2
def OrderStatusCancelled : Int := 3
def OrderStatusFilled : Int := 4
def OrderStatusNeedSign : Int := 5

/-- The six named order states of the data model. -/
inductive OrderState
  | NeedSign | Active | Inactive | Expired | Cancelled | Filled
  deriving DecidableEq, Repr

/-- The status constant of `order.go` that carries the state's name. -/
def OrderState.code : OrderState → Int
  | .NeedSign => OrderStatusNeedSign
  | .Active => OrderStatusActive
  | .Inactive => OrderStatusInactive
  | .Expired => OrderStatusExpired
  | .Cancelled => OrderStatusCancelled
  | .Filled => OrderStatusFilled

/-- The six status constants, in declaration order. -/
def statusConstants : List Int :=
  [OrderStatusActive, OrderStatusInactive, OrderStatusExpired,
   OrderStatusCancelled, OrderStatusFilled, OrderStatusNeedSign]

def terminalStatuses : List Int :=
  [OrderStatusExpired, OrderStatusCancelled, OrderStatusFilled]

def nonTerminalStatuses : List Int :=
  [OrderStatusActive, OrderStatusInactive, OrderStatusNeedSign]

/-- The `Order` struct.  `Price` is a `decimal.Decimal` (coefficient and exponent). -/
structure Order where
  ID : Int
  MarketplaceId : Int
  CollectionAddress : String
  TokenId : String
  OrderID : String
  OrderStatus : Int
  EventTime : Int
  ExpireTime : Int
  CurrencyAddress : String
  Price : Int × Int
  Maker : String
  Taker : String
  QuantityRemaining : Int
  Size : Int
  OrderType : Int
  Salt : Int
  CreateTime : Int
  UpdateTime : Int
  deriving DecidableEq, Repr

/-- The Go zero value of `Order`: every numeric field `0`, every string empty. -/
def Order.zero : Order :=
  { ID := 0, MarketplaceId := 0, CollectionAddress := "", TokenId := "", OrderID := "",
    OrderStatus := 0, EventTime := 0, ExpireTime := 0, CurrencyAddress := "",
    Price := (0, 0), Maker := "", Taker := "", QuantityRemaining := 0, Size := 0,
    OrderType := 0, Salt := 0, CreateTime := 0, UpdateTime := 0 }

/-- The value of the `order_status` column when a row is written without one
(`gorm:"column:order_status;default:0;NOT NULL"`). -/
def orderStatusColumnDefault : Int := 0

/-- A row stored with the column default: the given order with `order_status`
replaced by the default. -/
def Order.withDefaultStatus (o : Order) : Order :=
  { o with OrderStatus := orderStatusColumnDefault }

/-- The `Order` value with the given quantity, size and status, every other
field at its zero value. -/
def Order.withQuantities (remaining size status : Int) : Order :=
  { Order.zero with QuantityRemaining := remaining, Size := size, OrderStatus := status }

/-- An `Order` value whose `QuantityRemaining` is negative. -/
def Order.negativeRemaining : Order := Order.withQuantities (-1) 1 OrderStatusActive

/-- An `Order` value whose `QuantityRemaining` exceeds its `Size`. -/
def Order.overfull : Order := Order.withQuantities 2 1 OrderStatusActive

/-- The quantity invariant of the data model, as a predicate on `Order` values. -/
def Order.quantityInvariant (o : Order) : Prop :=
  0 ≤ o.QuantityRemaining ∧ o.QuantityRemaining ≤ o.Size ∧
    (o.QuantityRemaining = 0 → o.OrderStatus = OrderStatusFilled)

instance (o : Order) : Decidable o.quantityInvariant := by
  unfold Order.quantityInvariant; infer_instance

/-- The function `OrderTableName`: `fmt.Sprintf("ob_order_%s", chainName)`. -/
def OrderTableName (chainName : String) : String :=
  "ob_order_" ++ chainName

end multi

/-! ## Go errors (`github.com/pkg/errors`) -/

/-- A Go error value: one made by `errors.New`, or one made by `errors.Wrap`
around a cause. -/
inductive GoError
  | base (msg : String)
  | wrap (cause : GoError) (msg : String)
  deriving DecidableEq, Repr

/-- The `Error()` text: a wrapped error prints its own message, a colon and a
blank, then the text of its cause. -/
def GoError.Error : GoError → String
  | .base msg => msg
  | .wrap cause msg => msg ++ ": " ++ cause.Error

/-- The function `errors.Wrap(err, message)`: `nil` when `err` is `nil`. -/
def errorsWrap (err : Option GoError) (message : String) : Option GoError :=
  match err with
  | none => none
  | some e => some (.wrap e message)

/-! ## service.go -/

namespace service

structure RedisConf where
  Host : String
  Typ : String
  Pass : String
  deriving DecidableEq, Repr

/-- The struct `cache.NodeConf`. -/
structure NodeConf where
  RedisConf : RedisConf
  Weight : Int
  deriving DecidableEq, Repr

structure ChainCfg where
  ID : Int
  Name : String
  deriving DecidableEq, Repr

structure ProjectCfg where
  Name : String
  deriving DecidableEq, Repr

structure AnkrCfg where
  HttpsUrl : String
  ApiKey : String
  deriving DecidableEq, Repr

structure Monitor where
  PprofEnable : Bool
  PprofPort : Int
  deriving DecidableEq, Repr

/-- The struct `config.Config`, with the fields that `service.go` and `daemon.go` read.
`Log` is a pointer in the source (`*cfg.Log` is dereferenced): `none` is `nil`.
`DB` and the log configuration are passed on unread and kept as text. -/
structure Config where
  Kv : List RedisConf
  DB : String
  Log : Option String
  ChainCfg : ChainCfg
  ProjectCfg : ProjectCfg
  AnkrCfg : AnkrCfg
  Monitor : Monitor
  deriving DecidableEq, Repr

/-- A `context.Context`, identified by a number. -/
structure Context where
  id : Nat
  deriving DecidableEq, Repr

/-- The result of `xkv.NewStore(kvConf)`. -/
structure KvStore where
  kvConf : List NodeConf
  deriving DecidableEq, Repr

/-- The result of `model.NewDB(cfg.DB)`. -/
structure DB where
  conf : String
  deriving DecidableEq, Repr

/-- The result of `collectionfilter.New(ctx, db, chain, project)`: the instance
is identified by the arguments it was created from. -/
structure Filter where
  ctx : Context
  db : DB
  chain : String
  project : String
  deriving DecidableEq, Repr

/-- The result of `ordermanager.New(ctx, db, kvStore, chain, project)`. -/
structure OrderManager where
  ctx : Context
  db : DB
  kvStore : KvStore
  chain : String
  project : String
  deriving DecidableEq, Repr

/-- A `chainclient.ChainClient` handed back by `chainclient.New`. -/
structure ChainClient where
  id : Nat
  deriving DecidableEq, Repr

/-- The result of
`orderbookindexer.New(ctx, cfg, db, kvStore, chainClient, chainId, chain, orderManager)`:
the instance is identified by the eight arguments it was created from. -/
structure Indexer where
  ctx : Context
  cfg : Config
  db : DB
  kvStore : KvStore
  chainClient : ChainClient
  chainId : Int
  chain : String
  orderManager : OrderManager
  deriving DecidableEq, Repr

/-- A `sync.WaitGroup`, by its counter. -/
structure WaitGroup where
  counter : Nat
  deriving DecidableEq, Repr

/-- A value passed as an argument to a constructor. -/
inductive Value
  | context (c : Context)
  | config (c : Config)
  | db (d : DB)
  | kvStore (k : KvStore)
  | chainClient (c : ChainClient)
  | int64 (n : Int)
  | string (s : String)
  | orderManager (m : OrderManager)
  | filter (f : Filter)
  deriving DecidableEq, Repr

/-- The argument list with which the indexer was constructed, in call order. -/
def Indexer.args (i : Indexer) : List Value :=
  [.context i.ctx, .config i.cfg, .db i.db, .kvStore i.kvStore, .chainClient i.chainClient,
   .int64 i.chainId, .string i.chain, .orderManager i.orderManager]

/-- The argument list with which the order manager was constructed. -/
def OrderManager.args (m : OrderManager) : List Value :=
  [.context m.ctx, .db m.db, .kvStore m.kvStore, .string m.chain, .string m.project]

def Value.isFilter : Value → Bool
  | .filter _ => true
  | _ => false

/-- The constants `chain.EthChainID`, `chain.OptimismChainID`, `chain.SepoliaChainID`
of package `EasySwapBase/chain`. -/
structure ChainIDs where
  EthChainID : Int
  OptimismChainID : Int
  SepoliaChainID : Int
  deriving DecidableEq, Repr

/-- The chain identifiers of Ethereum mainnet, Optimism and Sepolia. -/
def ChainIDs.standard : ChainIDs :=
  { EthChainID := 1, OptimismChainID := 10, SepoliaChainID := 11155111 }

/-- The struct `Service`.  `orderbookIndexer` is the one pointer that `New`
can leave `nil` (`none`). -/
structure Service where
  ctx : Context
  config : Config
  kvStore : KvStore
  db : DB
  wg : WaitGroup
  collectionFilter : Filter
  orderbookIndexer : Option Indexer
  orderManager : OrderManager
  deriving DecidableEq, Repr

/-- The loop of `New` over `cfg.Kv.Redis`, appending one node per entry. -/
def kvConfOf (redis : List RedisConf) : List NodeConf :=
  redis.map fun con =>
    { RedisConf := { Host := con.Host, Typ := con.Typ, Pass := con.Pass }, Weight := 2 }

/-- The function `New(ctx, cfg)`.  `chainclientNew` is `chainclient.New`, whose
result is not determined by this file.  The `fmt.Println` of the client URL
has no effect on the result and is left out.  `int(cfg.ChainCfg.ID)` is the
identity on the 64-bit targets. -/
def New (ids : ChainIDs) (chainclientNew : Int → String → Except GoError ChainClient)
    (ctx : Context) (cfg : Config) : Except GoError Service :=
  let kvStore : KvStore := { kvConf := kvConfOf cfg.Kv }
  let db : DB := { conf := cfg.DB }
  let collectionFilter : Filter :=
    { ctx := ctx, db := db, chain := cfg.ChainCfg.Name, project := cfg.ProjectCfg.Name }
  let orderManager : OrderManager :=
    { ctx := ctx, db := db, kvStore := kvStore, chain := cfg.ChainCfg.Name,
      project := cfg.ProjectCfg.Name }
  match chainclientNew cfg.ChainCfg.ID (cfg.AnkrCfg.HttpsUrl ++ cfg.AnkrCfg.ApiKey) with
  | .error err => .error (.wrap err "failed on create evm client")
  | .ok chainClient =>
    -- switch cfg.ChainCfg.ID, one case, no default
    let orderbookSyncer : Option Indexer :=
      if cfg.ChainCfg.ID = ids.EthChainID ∨ cfg.ChainCfg.ID = ids.OptimismChainID ∨
          cfg.ChainCfg.ID = ids.SepoliaChainID then
        some { ctx := ctx, cfg := cfg, db := db, kvStore := kvStore, chainClient := chainClient,
               chainId := cfg.ChainCfg.ID, chain := cfg.ChainCfg.Name,
               orderManager := orderManager }
      else none
    -- the second `if err != nil` tests the same `err`, which is nil here
    .ok { ctx := ctx, config := cfg, db := db, kvStore := kvStore,
          collectionFilter := collectionFilter, orderbookIndexer := orderbookSyncer,
          orderManager := orderManager, wg := { counter := 0 } }

/-- A method call made by `Service.Start`, with its receiver. -/
inductive Call
  | PreloadCollections (recv : Filter)
  | orderbookIndexerStart (recv : Option Indexer)
  | orderManagerStart (recv : OrderManager)
  deriving DecidableEq, Repr

def Call.isPreload : Call → Bool
  | .PreloadCollections _ => true
  | _ => false

def Call.isIndexerStart : Call → Bool
  | .orderbookIndexerStart _ => true
  | _ => false

def Call.isManagerStart : Call → Bool
  | .orderManagerStart _ => true
  | _ => false

/-- The method `Service.Start`: the calls it makes, in order, and the error it
returns.  `preload` is the result of `PreloadCollections` on the given filter.
The two `Start` methods have no result and are taken to return. -/
def Service.Start (preload : Filter → Option GoError) (s : Service) :
    List Call × Option GoError :=
  match preload s.collectionFilter with
  | some err =>
    ([.PreloadCollections s.collectionFilter],
      errorsWrap (some err) "failed on preload collection to filter")
  | none =>
    ([.PreloadCollections s.collectionFilter, .orderbookIndexerStart s.orderbookIndexer,
      .orderManagerStart s.orderManager], none)

end service

/-! ## daemon.go -/

namespace cmd

inductive Signal
  | SIGHUP | SIGINT | SIGTERM
  | other (n : Nat)
  deriving DecidableEq, Repr

/-- What `DaemonCmd.Run` calls outside `daemon.go` and `service.go`.
`ListenAndServe` gives `none` when the server is bound and serving, in which
case the call does not return, and the error it returns otherwise. -/
structure Env where
  UnmarshalCmdConfig : Except GoError service.Config
  SetUp : String → Option GoError
  chainIDs : service.ChainIDs
  chainclientNew : Int → String → Except GoError service.ChainClient
  PreloadCollections : service.Filter → Option GoError
  ListenAndServe : String → Option GoError

/-- The four steps of the start-up goroutine. -/
inductive Step
  | UnmarshalCmdConfig | SetUp | New | Start
  deriving DecidableEq, Repr

/-- How the start-up goroutine ends: it returns (and its deferred `wg.Done()`
runs), it stays inside `http.ListenAndServe`, or it panics on `*cfg.Log`. -/
inductive Ending
  | returned | blocked | panicked
  deriving DecidableEq, Repr

/-- The observable run of the start-up goroutine: each step invoked with the
error it returned, the calls made by `Service.Start`, the values sent on
`onSyncExit`, the address given to `http.ListenAndServe` if it was called, and
how the goroutine ends. -/
structure GoroutineResult where
  steps : List (Step × Option GoError)
  calls : List service.Call
  sent : List GoError
  pprof : Option String
  ending : Ending
  deriving DecidableEq, Repr

/-- The body of the goroutine started by `DaemonCmd.Run`. -/
def startup (env : Env) (ctx : service.Context) : GoroutineResult :=
  match env.UnmarshalCmdConfig with
  | .error err =>
    { steps := [(.UnmarshalCmdConfig, some err)], calls := [], sent := [err], pprof := none,
      ending := .returned }
  | .ok cfg =>
    match cfg.Log with
    | none =>
      { steps := [(.UnmarshalCmdConfig, none)], calls := [], sent := [], pprof := none,
        ending := .panicked }
    | some log =>
      match env.SetUp log with
      | some err =>
        { steps := [(.UnmarshalCmdConfig, none), (.SetUp, some err)], calls := [], sent := [err],
          pprof := none, ending := .returned }
      | none =>
        match service.New env.chainIDs env.chainclientNew ctx cfg with
        | .error err =>
          { steps := [(.UnmarshalCmdConfig, none), (.SetUp, none), (.New, some err)],
            calls := [], sent := [err], pprof := none, ending := .returned }
        | .ok s =>
          match s.Start env.PreloadCollections with
          | (calls, some err) =>
            { steps := [(.UnmarshalCmdConfig, none), (.SetUp, none), (.New, none),
                        (.Start, some err)],
              calls := calls, sent := [err], pprof := none, ending := .returned }
          | (calls, none) =>
            if cfg.Monitor.PprofEnable then
              let addr := "0.0.0.0:" ++ toString cfg.Monitor.PprofPort
              { steps := [(.UnmarshalCmdConfig, none), (.SetUp, none), (.New, none),
                          (.Start, none)],
                calls := calls, sent := [], pprof := some addr,
                ending := match env.ListenAndServe addr with
                  | none => .blocked
                  | some _ => .returned }
            else
              { steps := [(.UnmarshalCmdConfig, none), (.SetUp, none), (.New, none),
                          (.Start, none)],
                calls := calls, sent := [], pprof := none, ending := .returned }

/-- The signals registered with `signal.Notify(onSignal, SIGINT, SIGTERM)`. -/
def notified : List Signal := [.SIGINT, .SIGTERM]

/-- The case of the `select` that fires. -/
inductive ExitCause
  | bySignal (sig : Signal)
  | byError (err : GoError)
  deriving DecidableEq, Repr

/-- The observable run of `DaemonCmd.Run`: the goroutine, the `select` case
taken (`none` when neither channel ever has a value), whether `cancel()` was
called, and whether `wg.Wait()`, and with it `Run`, returns. -/
structure RunResult where
  goroutine : GoroutineResult
  exit : Option ExitCause
  cancelCalled : Bool
  returned : Bool
  deriving DecidableEq, Repr

/-- The function `DaemonCmd.Run`.  `incoming` is the signal sent to the process,
if any; `signalFirst` is the choice of `select` when both channels are ready.
The WaitGroup has `Add(1)` once and `Done()` only in the goroutine's `defer`,
so `wg.Wait()` returns exactly when the goroutine returns.  A panic in the
goroutine ends the process before `Run` can return. -/
def Run (env : Env) (incoming : Option Signal) (signalFirst : Bool) : RunResult :=
  let ctx : service.Context := { id := 0 }
  let g := startup env ctx
  let delivered : Option Signal :=
    match incoming with
    | some sig => if sig ∈ notified then some sig else none
    | none => none
  let fired : Option ExitCause :=
    if g.ending = .panicked then none
    else
      match delivered, g.sent.head? with
      | some sig, some err => if signalFirst then some (.bySignal sig) else some (.byError err)
      | some sig, none => some (.bySignal sig)
      | none, some err => some (.byError err)
      | none, none => none
  let cancelCalled : Bool :=
    match fired with
    | some (.bySignal sig) => decide (sig = .SIGHUP ∨ sig = .SIGINT ∨ sig = .SIGTERM)
    | some (.byError _) => true
    | none => false
  { goroutine := g, exit := fired, cancelCalled := cancelCalled,
    returned := fired.isSome && decide (g.ending = .returned) }

/-- The main routine cancelled after the error `e` was sent: the goroutine it
started sent exactly `e`, `cancel()` was called, and the `select` case taken is
the error case with `e`, or the signal case with a registered signal that was
sent to the process. -/
def RunResult.cancelledAfter (r : RunResult) (incoming : Option Signal) (e : GoError) : Prop :=
  r.goroutine.sent = [e] ∧ r.cancelCalled = true ∧
    (r.exit = some (.byError e) ∨
      ∃ sig, sig ∈ notified ∧ incoming = some sig ∧ r.exit = some (.bySignal sig))

end cmd

/-! ## main.go and context.go of the backend -/

namespace backend

structure RedisConf where
  Host : String
  Typ : String
  Pass : String
  deriving DecidableEq, Repr

structure NodeConf where
  RedisConf : RedisConf
  Weight : Int
  deriving DecidableEq, Repr

structure ChainSupported where
  ChainID : Int
  Name : String
  Endpoint : String
  deriving DecidableEq, Repr

structure MetadataParse where
  NameTags : List String
  ImageTags : List String
  AttributesTags : List String
  TraitNameTags : List String
  TraitValueTags : List String
  deriving DecidableEq, Repr

/-- The struct `config.Config` of the backend, with the fields that `main.go` and
`context.go` read. -/
structure Config where
  ChainSupported : List ChainSupported
  Log : String
  Kv : List RedisConf
  DB : String
  MetadataParse : MetadataParse
  deriving DecidableEq, Repr

/-- A `*gorm.DB` handed back by `gdb.NewDB`. -/
structure DB where
  id : Nat
  deriving DecidableEq, Repr

/-- A `*nftchainservice.Service` handed back by `nftchainservice.New`. -/
structure NodeSrv where
  id : Nat
  deriving DecidableEq, Repr

structure KvStore where
  kvConf : List NodeConf
  deriving DecidableEq, Repr

/-- The result of `dao.New(ctx, db, store)`. -/
structure Dao where
  db : DB
  store : KvStore
  deriving DecidableEq, Repr

/-- The struct `ServerCtx`, with the fields that `NewServiceContext` sets.
`NodeSrvs` is the map from chain id to node service, as an association list
with one entry per key. -/
structure ServerCtx where
  C : Config
  DB : DB
  Dao : Dao
  KvStore : KvStore
  NodeSrvs : List (Int × NodeSrv)
  deriving DecidableEq, Repr

/-- What the backend calls outside `main.go` and `context.go`. -/
structure Env where
  UnmarshalConfig : String → Except GoError Config
  SetUp : String → Option GoError
  NewDB : String → Except GoError DB
  nftchainserviceNew : String → String → Int → MetadataParse → Except GoError NodeSrv
  NewPlatform : Config → ServerCtx → Option GoError

/-- The map assignment `m[k] = v`. -/
def mapSet (m : List (Int × NodeSrv)) (k : Int) (v : NodeSrv) : List (Int × NodeSrv) :=
  (k, v) :: m.filter fun e => e.1 ≠ k

/-- The loop of `NewServiceContext` over `c.ChainSupported`. -/
def nodeSrvsLoop (env : Env) (c : Config) :
    List ChainSupported → List (Int × NodeSrv) → Except GoError (List (Int × NodeSrv))
  | [], m => .ok m
  | supported :: rest, m =>
    match env.nftchainserviceNew supported.Endpoint supported.Name supported.ChainID
        c.MetadataParse with
    | .error err => .error (.wrap err "failed on start onchain sync service")
    | .ok srv => nodeSrvsLoop env c rest (mapSet m supported.ChainID srv)

/-- The function `NewServiceContext(c)`. -/
def NewServiceContext (env : Env) (c : Config) : Except GoError ServerCtx :=
  match env.SetUp c.Log with
  | some err => .error err
  | none =>
    let kvConf : List NodeConf := c.Kv.map fun con =>
      { RedisConf := { Host := con.Host, Typ := con.Typ, Pass := con.Pass }, Weight := 1 }
    let store : KvStore := { kvConf := kvConf }
    match env.NewDB c.DB with
    | .error err => .error err
    | .ok db =>
      match nodeSrvsLoop env c c.ChainSupported [] with
      | .error err => .error err
      | .ok nodeSrvs =>
        .ok { C := c, DB := db, Dao := { db := db, store := store }, KvStore := store,
              NodeSrvs := nodeSrvs }

def defaultConfigPath : String := "../config/config.toml"

/-- The argument of `panic`: a string, or an error value. -/
inductive PanicValue
  | str (s : String)
  | err (e : GoError)
  deriving DecidableEq, Repr

/-- The calls `main` makes, in order. -/
inductive MainCall
  | UnmarshalConfig (path : String)
  | NewServiceContext (c : Config)
  | NewRouter (serverCtx : ServerCtx)
  | NewPlatform (c : Config) (serverCtx : ServerCtx)
  | AppStart
  deriving DecidableEq, Repr

/-- The loop of `main` over `c.ChainSupported`: the panic raised at the first
entry with `ChainID == 0 || Name == ""`, if there is one. -/
def checkChains : List ChainSupported → Option PanicValue
  | [] => none
  | chain :: rest =>
    if chain.ChainID = 0 ∨ chain.Name = "" then some (.str "invalid chain_suffix config")
    else checkChains rest

/-- The function `main`: the calls it makes and the panic it ends with, if any.
`confFlag` is the value of the `-conf` flag when it is given. -/
def main (env : Env) (confFlag : Option String) : List MainCall × Option PanicValue :=
  let conf := confFlag.getD defaultConfigPath
  match env.UnmarshalConfig conf with
  | .error err => ([.UnmarshalConfig conf], some (.err err))
  | .ok c =>
    match checkChains c.ChainSupported with
    | some p => ([.UnmarshalConfig conf], some p)
    | none =>
      match NewServiceContext env c with
      | .error err => ([.UnmarshalConfig conf, .NewServiceContext c], some (.err err))
      | .ok serverCtx =>
        match env.NewPlatform c serverCtx with
        | some err =>
          ([.UnmarshalConfig conf, .NewServiceContext c, .NewRouter serverCtx,
            .NewPlatform c serverCtx], some (.err err))
        | none =>
          ([.UnmarshalConfig conf, .NewServiceContext c, .NewRouter serverCtx,
            .NewPlatform c serverCtx, .AppStart], none)

def MainCall.isNewServiceContext : MainCall → Bool
  | .NewServiceContext _ => true
  | _ => false

end backend

/-! ## Concrete inputs -/

namespace service

/-- A configuration for the chain with the given id and name. -/
def sampleConfig (id : Int) (name : String) (pprof : Bool) : Config :=
  { Kv := [{ Host := "127.0.0.1:6379", Typ := "node", Pass := "" }],
    DB := "easyswap", Log := some "info",
    ChainCfg := { ID := id, Name := name },
    ProjectCfg := { Name := "OrderBookDex" },
    AnkrCfg := { HttpsUrl := "https://rpc.ankr.com/", ApiKey := "k" },
    Monitor := { PprofEnable := pprof, PprofPort := 6060 } }

/-- A `chainclient.New` that hands back a client for every chain id. -/
def clientAlways : Int → String → Except GoError ChainClient :=
  fun _ _ => .ok { id := 7 }

/-- A `chainclient.New` that creates a client for the three listed chain ids
and returns an error for every other id. -/
def clientListed (ids : ChainIDs) : Int → String → Except GoError ChainClient :=
  fun id _ =>
    if id = ids.EthChainID ∨ id = ids.OptimismChainID ∨ id = ids.SepoliaChainID then
      .ok { id := 7 }
    else .error (.base "unsupported chain id")

/-- The order manager that `New` builds for Sepolia. -/
def sampleManager : OrderManager :=
  let cfg := sampleConfig 11155111 "sepolia" false
  { ctx := { id := 0 }, db := { conf := cfg.DB }, kvStore := { kvConf := kvConfOf cfg.Kv },
    chain := "sepolia", project := "OrderBookDex" }

/-- The indexer that `New` builds for Sepolia. -/
def sampleIndexer : Indexer :=
  let cfg := sampleConfig 11155111 "sepolia" false
  { ctx := { id := 0 }, cfg := cfg, db := { conf := cfg.DB },
    kvStore := { kvConf := kvConfOf cfg.Kv }, chainClient := { id := 7 },
    chainId := 11155111, chain := "sepolia", orderManager := sampleManager }

/-- The service that `New` builds for Sepolia. -/
def sampleService : Service :=
  let cfg := sampleConfig 11155111 "sepolia" false
  { ctx := { id := 0 }, config := cfg, kvStore := { kvConf := kvConfOf cfg.Kv },
    db := { conf := cfg.DB }, wg := { counter := 0 },
    collectionFilter :=
      { ctx := { id := 0 }, db := { conf := cfg.DB }, chain := "sepolia",
        project := "OrderBookDex" },
    orderbookIndexer := some sampleIndexer,
    orderManager := sampleManager }

/-- A preload that succeeds. -/
def preloadOk : Filter → Option GoError := fun _ => none

/-- A preload that fails because the backing store cannot be reached. -/
def preloadDown : Filter → Option GoError := fun _ => some (.base "db unreachable")

end service

namespace cmd

/-- An environment in which every start-up step succeeds for Sepolia;
`pprof` is `cfg.Monitor.PprofEnable` and `listen` the result of
`http.ListenAndServe`. -/
def sampleEnv (pprof : Bool) (listen : Option GoError) : Env :=
  { UnmarshalCmdConfig := .ok (service.sampleConfig 11155111 "sepolia" pprof),
    SetUp := fun _ => none,
    chainIDs := service.ChainIDs.standard,
    chainclientNew := service.clientAlways,
    PreloadCollections := service.preloadOk,
    ListenAndServe := fun _ => listen }

/-- An environment in which the preload fails. -/
def sampleEnvPreloadDown : Env :=
  { UnmarshalCmdConfig := .ok (service.sampleConfig 11155111 "sepolia" false),
    SetUp := fun _ => none,
    chainIDs := service.ChainIDs.standard,
    chainclientNew := service.clientAlways,
    PreloadCollections := service.preloadDown,
    ListenAndServe := fun _ => none }

end cmd

namespace backend

def sampleConfig (chains : List ChainSupported) : Config :=
  { ChainSupported := chains, Log := "info", Kv := [], DB := "easyswap",
    MetadataParse :=
      { NameTags := [], ImageTags := [], AttributesTags := [], TraitNameTags := [],
        TraitValueTags := [] } }

/-- An environment in which the configuration with the given chain list is
read and every later call succeeds. -/
def sampleEnv (chains : List ChainSupported) : Env :=
  { UnmarshalConfig := fun _ => .ok (sampleConfig chains),
    SetUp := fun _ => none,
    NewDB := fun _ => .ok { id := 1 },
    nftchainserviceNew := fun _ _ id _ => .ok { id := id.toNat },
    NewPlatform := fun _ _ => none }

def sepoliaChain : ChainSupported :=
  { ChainID := 11155111, Name := "sepolia", Endpoint := "https://rpc.sepolia.org" }

/-- An entry with `ChainID` left at zero. -/
def unnumberedChain : ChainSupported :=
  { ChainID := 0, Name := "sepolia", Endpoint := "https://rpc.sepolia.org" }

end backend

/-! ## Theorems: order.go -/

/-- C5: `OrderTableName c` is the string `ob_order_` followed by `c`, and the
function is injective, so two different chains never share an order table. -/
theorem orderTableName_partition :
    (∀ c : String, multi.OrderTableName c = "ob_order_" ++ c) ∧
    (∀ c1 c2 : String, multi.OrderTableName c1 = multi.OrderTableName c2 → c1 = c2) := by
  refine ⟨fun _ => rfl, ?_⟩
  intro c1 c2 h
  unfold multi.OrderTableName at h
  have h2 := congrArg String.data h
  simp only [String.data_append] at h2
  exact String.ext (List.append_cancel_left h2)

/-- C7: the six status constants are pairwise distinct and are exactly the
integers 0 to 5; every integer in that range is the code of exactly one state;
the terminal statuses and the non-terminal statuses are disjoint and together
are all six constants. -/
theorem orderStatus_six_states :
    multi.statusConstants.Nodup ∧
    (∀ n : Int, n ∈ multi.statusConstants ↔ 0 ≤ n ∧ n ≤ 5) ∧
    (∀ n : Int, 0 ≤ n → n ≤ 5 → ∃! s : multi.OrderState, s.code = n) ∧
    (∀ n : Int, n ∈ multi.terminalStatuses → n ∉ multi.nonTerminalStatuses) ∧
    (∀ n : Int, n ∈ multi.statusConstants ↔
      n ∈ multi.terminalStatuses ∨ n ∈ multi.nonTerminalStatuses) ∧
    multi.terminalStatuses =
      [multi.OrderState.Expired.code, multi.OrderState.Cancelled.code,
       multi.OrderState.Filled.code] ∧
    multi.nonTerminalStatuses =
      [multi.OrderState.Active.code, multi.OrderState.Inactive.code,
       multi.OrderState.NeedSign.code] := by
  refine ⟨by decide, ?_, ?_, ?_, ?_, rfl, rfl⟩
  · intro n
    simp only [multi.statusConstants, multi.OrderStatusActive, multi.OrderStatusInactive,
      multi.OrderStatusExpired, multi.OrderStatusCancelled, multi.OrderStatusFilled,
      multi.OrderStatusNeedSign, List.mem_cons, List.mem_singleton, List.not_mem_nil, or_false]
    omega
  · intro n h0 h5
    have hn : n = 0 ∨ n = 1 ∨ n = 2 ∨ n = 3 ∨ n = 4 ∨ n = 5 := by omega
    rcases hn with h | h | h | h | h | h <;> subst h
    · exact ⟨.Active, rfl, fun s hs => by cases s <;> first | rfl | (exact absurd hs (by decide))⟩
    · exact ⟨.Inactive, rfl, fun s hs => by cases s <;> first | rfl | (exact absurd hs (by decide))⟩
    · exact ⟨.Expired, rfl, fun s hs => by cases s <;> first | rfl | (exact absurd hs (by decide))⟩
    · exact ⟨.Cancelled, rfl, fun s hs => by cases s <;> first | rfl | (exact absurd hs (by decide))⟩
    · exact ⟨.Filled, rfl, fun s hs => by cases s <;> first | rfl | (exact absurd hs (by decide))⟩
    · exact ⟨.NeedSign, rfl, fun s hs => by cases s <;> first | rfl | (exact absurd hs (by decide))⟩
  · intro n hn
    simp only [multi.terminalStatuses, multi.nonTerminalStatuses, multi.OrderStatusActive,
      multi.OrderStatusInactive, multi.OrderStatusExpired, multi.OrderStatusCancelled,
      multi.OrderStatusFilled, multi.OrderStatusNeedSign, List.mem_cons, List.mem_singleton,
      List.not_mem_nil, or_false] at hn ⊢
    omega
  · intro n
    simp only [multi.statusConstants, multi.terminalStatuses, multi.nonTerminalStatuses,
      multi.OrderStatusActive, multi.OrderStatusInactive, multi.OrderStatusExpired,
      multi.OrderStatusCancelled, multi.OrderStatusFilled, multi.OrderStatusNeedSign,
      List.mem_cons, List.mem_singleton, List.not_mem_nil, or_false]
    omega

/-- C6 (as stated, refuted): not every `Order` value satisfies the quantity
invariant, in either half.  The zero-value `Order`, which is also a row with
the column default `order_status = 0`, has `QuantityRemaining = 0` with
`OrderStatus = 0`, which is `OrderStatusActive`, not `OrderStatusFilled`; the
`Order` value with `QuantityRemaining = -1` breaks `0 ≤ QuantityRemaining`; the
`Order` value with `QuantityRemaining = 2` and `Size = 1` breaks
`QuantityRemaining ≤ Size`. -/
theorem order_invariant_fails_on_zero_value :
    multi.Order.zero.QuantityRemaining = 0 ∧
    multi.Order.zero.OrderStatus ≠ multi.OrderStatusFilled ∧
    ¬ multi.Order.zero.quantityInvariant ∧
    ¬ multi.Order.zero.withDefaultStatus.quantityInvariant ∧
    ¬ (0 ≤ multi.Order.negativeRemaining.QuantityRemaining) ∧
    ¬ (multi.Order.overfull.QuantityRemaining ≤ multi.Order.overfull.Size) ∧
    ¬ (∀ o : multi.Order, 0 ≤ o.QuantityRemaining ∧ o.QuantityRemaining ≤ o.Size) ∧
    ¬ (∀ o : multi.Order, o.QuantityRemaining = 0 → o.OrderStatus = multi.OrderStatusFilled) ∧
    ¬ (∀ o : multi.Order, o.quantityInvariant) := by
  refine ⟨rfl, by decide, by decide, by decide, by decide, by decide, ?_, ?_, ?_⟩
  · intro h
    exact absurd (h multi.Order.negativeRemaining).1 (by decide)
  · intro h
    exact absurd (h multi.Order.zero rfl) (by decide)
  · intro h
    exact absurd (h multi.Order.zero) (by decide)

/-- C6 (amended): the `Order` struct places no constraint on
`QuantityRemaining`, `Size` or `OrderStatus`: every triple of values is the
triple of some `Order` value, and an `Order` value satisfies the invariant
exactly when its stored fields do.  The zero-value `Order` satisfies
`0 ≤ QuantityRemaining ≤ Size` and has `QuantityRemaining = 0` with
`OrderStatusActive`, not `OrderStatusFilled`.  A row stored with the column
default `order_status = 0` carries `OrderStatusActive` and satisfies the
invariant exactly when `0 < QuantityRemaining ≤ Size`. -/
theorem order_zero_value_is_active :
    (∀ remaining size status : Int, ∃ o : multi.Order,
      o.QuantityRemaining = remaining ∧ o.Size = size ∧ o.OrderStatus = status) ∧
    (∀ remaining size status : Int,
      (multi.Order.withQuantities remaining size status).quantityInvariant ↔
        0 ≤ remaining ∧ remaining ≤ size ∧
          (remaining = 0 → status = multi.OrderStatusFilled)) ∧
    (0 ≤ multi.Order.zero.QuantityRemaining ∧
      multi.Order.zero.QuantityRemaining ≤ multi.Order.zero.Size) ∧
    multi.Order.zero.QuantityRemaining = 0 ∧
    multi.Order.zero.OrderStatus = multi.OrderStatusActive ∧
    multi.Order.zero.OrderStatus ≠ multi.OrderStatusFilled ∧
    multi.Order.zero.withDefaultStatus = multi.Order.zero ∧
    (∀ o : multi.Order, o.withDefaultStatus.OrderStatus = multi.OrderStatusActive ∧
      o.withDefaultStatus.OrderStatus ≠ multi.OrderStatusFilled ∧
      o.withDefaultStatus.QuantityRemaining = o.QuantityRemaining ∧
      o.withDefaultStatus.Size = o.Size ∧
      (o.withDefaultStatus.quantityInvariant ↔
        0 < o.QuantityRemaining ∧ o.QuantityRemaining ≤ o.Size)) := by
  refine ⟨?_, ?_, by decide, rfl, rfl, by decide, rfl, ?_⟩
  · intro remaining size status
    exact ⟨multi.Order.withQuantities remaining size status, rfl, rfl, rfl⟩
  · intro remaining size status
    exact Iff.rfl
  · intro o
    refine ⟨rfl, ?_, rfl, rfl, ?_⟩
    · show multi.orderStatusColumnDefault ≠ multi.OrderStatusFilled
      decide
    · simp only [multi.Order.quantityInvariant, multi.Order.withDefaultStatus,
        multi.orderStatusColumnDefault, multi.OrderStatusFilled]
      constructor
      · rintro ⟨h0, h1, h2⟩
        refine ⟨?_, h1⟩
        rcases lt_or_eq_of_le h0 with h | h
        · exact h
        · exact absurd (h2 h.symm) (by decide)
      · rintro ⟨h0, h1⟩
        exact ⟨le_of_lt h0, h1, fun h => absurd h (ne_of_gt h0)⟩

/-! ## Theorems: service.go -/

/-- C1: in every execution of `Service.Start`, `PreloadCollections` is called
exactly once, it is the first call, and any call of `orderbookIndexer.Start`
or `orderManager.Start` comes after it and only when it returned no error. -/
theorem start_preloads_once_before_indexer (preload : service.Filter → Option GoError)
    (s : service.Service) :
    ((s.Start preload).1.filter service.Call.isPreload).length = 1 ∧
    (s.Start preload).1.head? = some (.PreloadCollections s.collectionFilter) ∧
    (∀ (i : Nat) (c : service.Call), (s.Start preload).1.get? i = some c →
      (c.isIndexerStart = true ∨ c.isManagerStart = true) →
        0 < i ∧ preload s.collectionFilter = none) := by
  unfold service.Service.Start
  cases h : preload s.collectionFilter with
  | some err =>
    refine ⟨rfl, rfl, ?_⟩
    intro i c hi hc
    rcases i with _ | i
    · simp at hi
      subst hi
      simp [service.Call.isIndexerStart, service.Call.isManagerStart] at hc
    · simp at hi
  | none =>
    refine ⟨rfl, rfl, ?_⟩
    intro i c hi hc
    rcases i with _ | i
    · simp at hi
      subst hi
      simp [service.Call.isIndexerStart, service.Call.isManagerStart] at hc
    · exact ⟨Nat.succ_pos i, rfl⟩

/-- Witness of C1 on a service built for Sepolia whose preload succeeds: the
call at position 1 is the indexer start, and it follows the preload. -/
theorem start_preloads_once_before_indexer_witness :
    0 < 1 ∧ service.preloadOk service.sampleService.collectionFilter = none :=
  (start_preloads_once_before_indexer service.preloadOk service.sampleService).2.2 1
    (.orderbookIndexerStart service.sampleService.orderbookIndexer) rfl (Or.inl rfl)

/-- C2: when `PreloadCollections` returns an error `e`, `Start` returns the
error that wraps `e` with the message `failed on preload collection to filter`
and calls neither `orderbookIndexer.Start` nor `orderManager.Start`; and
`Start` returns `nil` only if the preload returned `nil`. -/
theorem start_fails_fast_on_preload_error (preload : service.Filter → Option GoError)
    (s : service.Service) :
    (∀ e : GoError, preload s.collectionFilter = some e →
      (s.Start preload).2 = some (.wrap e "failed on preload collection to filter") ∧
      (∀ err : GoError, (s.Start preload).2 = some err →
        err.Error = "failed on preload collection to filter" ++ ": " ++ e.Error) ∧
      (s.Start preload).1 = [.PreloadCollections s.collectionFilter] ∧
      (∀ c ∈ (s.Start preload).1, c.isIndexerStart = false ∧ c.isManagerStart = false)) ∧
    ((s.Start preload).2 = none → preload s.collectionFilter = none) := by
  constructor
  · intro e h
    have hs : s.Start preload =
        ([.PreloadCollections s.collectionFilter],
          some (.wrap e "failed on preload collection to filter")) := by
      simp [service.Service.Start, h, errorsWrap]
    rw [hs]
    refine ⟨rfl, ?_, rfl, ?_⟩
    · intro err herr
      simp only [Option.some.injEq] at herr
      subst herr
      rfl
    · intro c hc
      simp only [List.mem_singleton] at hc
      subst hc
      exact ⟨rfl, rfl⟩
  · intro h
    cases hp : preload s.collectionFilter with
    | none => rfl
    | some e =>
      simp [service.Service.Start, hp, errorsWrap] at h

/-- Witness of C2: the preload of the Sepolia service fails with
`db unreachable`. -/
theorem start_fails_fast_on_preload_error_witness :
    (service.sampleService.Start service.preloadDown).2 =
      some (.wrap (.base "db unreachable") "failed on preload collection to filter") ∧
    (service.sampleService.Start service.preloadDown).1 =
      [.PreloadCollections service.sampleService.collectionFilter] :=
  have h := (start_fails_fast_on_preload_error service.preloadDown
    service.sampleService).1 (.base "db unreachable") rfl
  ⟨h.1, h.2.2.1⟩

/-- The indexer of a `Service` returned by `New` is decided by the `switch`:
it is built, with `cfg.ChainCfg.ID` and `cfg.ChainCfg.Name`, when the chain id
is one of the three listed, and left `nil` otherwise. -/
theorem new_indexer_by_switch (ids : service.ChainIDs)
    (client : Int → String → Except GoError service.ChainClient) (ctx : service.Context)
    (cfg : service.Config) (s : service.Service)
    (hnew : service.New ids client ctx cfg = .ok s) :
    ((cfg.ChainCfg.ID = ids.EthChainID ∨ cfg.ChainCfg.ID = ids.OptimismChainID ∨
        cfg.ChainCfg.ID = ids.SepoliaChainID) →
      ∃ idx, s.orderbookIndexer = some idx ∧ idx.chainId = cfg.ChainCfg.ID ∧
        idx.chain = cfg.ChainCfg.Name) ∧
    (¬ (cfg.ChainCfg.ID = ids.EthChainID ∨ cfg.ChainCfg.ID = ids.OptimismChainID ∨
        cfg.ChainCfg.ID = ids.SepoliaChainID) → s.orderbookIndexer = none) := by
  unfold service.New at hnew
  cases hc : client cfg.ChainCfg.ID (cfg.AnkrCfg.HttpsUrl ++ cfg.AnkrCfg.ApiKey) with
  | error e => simp [hc] at hnew
  | ok cc =>
    simp only [hc, Except.ok.injEq] at hnew
    subst hnew
    constructor
    · intro hid
      simp [hid]
    · intro hid
      simp [hid]

/-- C3: with a `chainclient.New` that creates a client only for the chain ids
listed in the `switch` of `New`, every `Service` that `New` returns without
error has a non-nil `orderbookIndexer`, built by `orderbookindexer.New` from
`ctx`, `cfg`, the database, the key-value store, the created client,
`cfg.ChainCfg.ID`, `cfg.ChainCfg.Name` and the order manager of that
`Service`; `Service.Start` never calls `orderbookIndexer.Start` on a `nil`
indexer. -/
theorem new_builds_indexer_for_configured_chain (ids : service.ChainIDs)
    (client : Int → String → Except GoError service.ChainClient) (ctx : service.Context)
    (cfg : service.Config) (s : service.Service)
    (hclient : ∀ id url cc, client id url = .ok cc →
      id = ids.EthChainID ∨ id = ids.OptimismChainID ∨ id = ids.SepoliaChainID)
    (hnew : service.New ids client ctx cfg = .ok s) :
    s.orderbookIndexer ≠ none ∧
    s.orderbookIndexer.map service.Indexer.chainId = some cfg.ChainCfg.ID ∧
    s.orderbookIndexer.map service.Indexer.chain = some cfg.ChainCfg.Name ∧
    (s.orderbookIndexer.map fun idx =>
        (idx.ctx, idx.cfg, idx.db, idx.kvStore, idx.orderManager)) =
      some (ctx, cfg, s.db, s.kvStore, s.orderManager) ∧
    (s.orderbookIndexer.map fun idx => Except.ok (ε := GoError) idx.chainClient) =
      some (client cfg.ChainCfg.ID (cfg.AnkrCfg.HttpsUrl ++ cfg.AnkrCfg.ApiKey)) ∧
    (∀ preload : service.Filter → Option GoError,
      service.Call.orderbookIndexerStart none ∉ (s.Start preload).1) := by
  unfold service.New at hnew
  cases hc : client cfg.ChainCfg.ID (cfg.AnkrCfg.HttpsUrl ++ cfg.AnkrCfg.ApiKey) with
  | error e => simp [hc] at hnew
  | ok cc =>
    have hl := hclient _ _ _ hc
    simp only [hc, Except.ok.injEq, hl, ↓reduceIte] at hnew
    subst hnew
    refine ⟨by simp, rfl, rfl, rfl, rfl, ?_⟩
    intro preload
    unfold service.Service.Start
    cases preload _ <;> simp

/-- Witness of C3: for Sepolia, with a client created only for the listed
chain ids, `New` returns the service whose indexer carries chain id 11155111
and chain name `sepolia`. -/
theorem new_builds_indexer_for_configured_chain_witness :
    service.sampleService.orderbookIndexer ≠ none ∧
    service.sampleService.orderbookIndexer.map service.Indexer.chainId = some 11155111 ∧
    service.sampleService.orderbookIndexer.map service.Indexer.chain = some "sepolia" :=
  have h := new_builds_indexer_for_configured_chain service.ChainIDs.standard
    (service.clientListed service.ChainIDs.standard) { id := 0 }
    (service.sampleConfig 11155111 "sepolia" false) service.sampleService
    (by
      intro id url cc hcc
      unfold service.clientListed at hcc
      by_cases hid : id = service.ChainIDs.standard.EthChainID ∨
          id = service.ChainIDs.standard.OptimismChainID ∨
          id = service.ChainIDs.standard.SepoliaChainID
      · exact hid
      · simp [hid] at hcc)
    (by simp [service.New, service.clientListed, service.sampleService, service.sampleIndexer,
          service.sampleManager, service.sampleConfig, service.ChainIDs.standard])
  ⟨h.1, h.2.1, h.2.2.1⟩

/-- C4 (as stated, refuted): for Sepolia, `New` returns a `Service` whose
indexer was constructed, `Start` preloads the filter of that `Service`, and
that filter is not among the arguments the indexer was constructed with. -/
theorem filter_not_passed_to_indexer :
    ∃ (s : service.Service) (idx : service.Indexer),
      service.New service.ChainIDs.standard service.clientAlways { id := 0 }
          (service.sampleConfig 11155111 "sepolia" false) = .ok s ∧
      s.orderbookIndexer = some idx ∧
      (s.Start service.preloadOk).1.head? = some (.PreloadCollections s.collectionFilter) ∧
      service.Value.filter s.collectionFilter ∉ idx.args := by
  refine ⟨service.sampleService, service.sampleIndexer, ?_, rfl, rfl, ?_⟩
  · simp [service.New, service.clientAlways, service.sampleService, service.sampleIndexer,
      service.sampleManager, service.sampleConfig, service.ChainIDs.standard]
  · simp [service.Indexer.args]

/-- C4 (amended): the filter that `New` creates (from `ctx`, the database, the
chain name and the project name) is the one stored in the returned `Service`
and the one `Start` preloads first; the indexer is constructed with `ctx`,
`cfg`, the database, the key-value store, the chain client, the chain id, the
chain name and the order manager; no filter is among those arguments, nor
among the arguments the order manager was constructed with. -/
theorem filter_preloaded_but_not_an_indexer_argument (ids : service.ChainIDs)
    (client : Int → String → Except GoError service.ChainClient) (ctx : service.Context)
    (cfg : service.Config) (s : service.Service) (idx : service.Indexer)
    (preload : service.Filter → Option GoError)
    (hnew : service.New ids client ctx cfg = .ok s) (hidx : s.orderbookIndexer = some idx) :
    s.collectionFilter =
      { ctx := ctx, db := { conf := cfg.DB }, chain := cfg.ChainCfg.Name,
        project := cfg.ProjectCfg.Name } ∧
    (s.Start preload).1.head? = some (.PreloadCollections s.collectionFilter) ∧
    (∃ cc, client cfg.ChainCfg.ID (cfg.AnkrCfg.HttpsUrl ++ cfg.AnkrCfg.ApiKey) = .ok cc ∧
      idx.args = [.context ctx, .config cfg, .db s.db, .kvStore s.kvStore, .chainClient cc,
        .int64 cfg.ChainCfg.ID, .string cfg.ChainCfg.Name, .orderManager s.orderManager]) ∧
    (∀ v ∈ idx.args, v.isFilter = false) ∧
    (∀ v ∈ s.orderManager.args, v.isFilter = false) := by
  have hstart : (s.Start preload).1.head? = some (.PreloadCollections s.collectionFilter) := by
    unfold service.Service.Start
    cases preload s.collectionFilter <;> rfl
  refine ⟨?_, hstart, ?_, ?_, ?_⟩
  · unfold service.New at hnew
    cases hc : client cfg.ChainCfg.ID (cfg.AnkrCfg.HttpsUrl ++ cfg.AnkrCfg.ApiKey) with
    | error e => simp [hc] at hnew
    | ok cc =>
      simp only [hc, Except.ok.injEq] at hnew
      subst hnew
      rfl
  · unfold service.New at hnew
    cases hc : client cfg.ChainCfg.ID (cfg.AnkrCfg.HttpsUrl ++ cfg.AnkrCfg.ApiKey) with
    | error e => simp [hc] at hnew
    | ok cc =>
      simp only [hc, Except.ok.injEq] at hnew
      subst hnew
      refine ⟨cc, rfl, ?_⟩
      simp only at hidx
      split at hidx
      · simp only [Option.some.injEq] at hidx
        subst hidx
        rfl
      · simp at hidx
  · intro v hv
    simp only [service.Indexer.args, List.mem_cons, List.mem_singleton, List.not_mem_nil,
      or_false] at hv
    rcases hv with h | h | h | h | h | h | h | h <;> subst h <;> rfl
  · intro v hv
    simp only [service.OrderManager.args, List.mem_cons, List.mem_singleton, List.not_mem_nil,
      or_false] at hv
    rcases hv with h | h | h | h | h <;> subst h <;> rfl

/-- Witness of C4 (amended) on the Sepolia configuration: the filter of the
service is the one built from the configuration, and the indexer is built
from eight arguments, none of them a filter. -/
theorem filter_preloaded_but_not_an_indexer_argument_witness :
    service.sampleService.collectionFilter =
      { ctx := { id := 0 }, db := { conf := "easyswap" }, chain := "sepolia",
        project := "OrderBookDex" } ∧
    (service.sampleService.Start service.preloadOk).1.head? =
      some (.PreloadCollections service.sampleService.collectionFilter) :=
  have h := filter_preloaded_but_not_an_indexer_argument service.ChainIDs.standard
    service.clientAlways { id := 0 } (service.sampleConfig 11155111 "sepolia" false)
    service.sampleService service.sampleIndexer service.preloadOk
    (by simp [service.New, service.clientAlways, service.sampleService, service.sampleIndexer,
          service.sampleManager, service.sampleConfig, service.ChainIDs.standard])
    rfl
  ⟨h.1, h.2.1⟩

/-! ## Theorems: daemon.go -/

/-- The goroutine sends nothing, or it sends one error and then returns. -/
theorem startup_sent_cases (env : cmd.Env) (ctx : service.Context) :
    (cmd.startup env ctx).sent = [] ∨
    ∃ e, (cmd.startup env ctx).sent = [e] ∧ (cmd.startup env ctx).ending = .returned := by
  unfold cmd.startup
  repeat' split
  all_goals simp

/-- C8 (evaluation of the code): with profiling enabled and the profiling
server bound and serving, every start-up step succeeds, SIGINT is delivered,
`Run` calls `cancel()`, the goroutine stays inside `http.ListenAndServe`, and
`wg.Wait()` does not return, so `Run` does not return.  With profiling
disabled the same run returns. -/
theorem run_does_not_return_when_pprof_serves :
    (cmd.Run (cmd.sampleEnv true none) (some .SIGINT) true).exit = some (.bySignal .SIGINT) ∧
    (cmd.Run (cmd.sampleEnv true none) (some .SIGINT) true).cancelCalled = true ∧
    (cmd.Run (cmd.sampleEnv true none) (some .SIGINT) true).goroutine.steps =
      [(.UnmarshalCmdConfig, none), (.SetUp, none), (.New, none), (.Start, none)] ∧
    (cmd.Run (cmd.sampleEnv true none) (some .SIGINT) true).goroutine.ending = .blocked ∧
    (cmd.Run (cmd.sampleEnv true none) (some .SIGINT) true).returned = false ∧
    (cmd.Run (cmd.sampleEnv false none) (some .SIGINT) true).returned = true := by
  refine ⟨?_, ?_, ?_, ?_, ?_, ?_⟩ <;>
    simp [cmd.Run, cmd.startup, cmd.sampleEnv, cmd.notified, service.New, service.Service.Start,
      service.sampleConfig, service.clientAlways, service.preloadOk, service.ChainIDs.standard]

/-- The steps the goroutine invokes and the values it sends, by the first step
that fails. -/
theorem startup_steps (env : cmd.Env) (ctx : service.Context) :
    (∀ e, env.UnmarshalCmdConfig = .error e →
      (cmd.startup env ctx).steps = [(.UnmarshalCmdConfig, some e)] ∧
      (cmd.startup env ctx).sent = [e]) ∧
    (∀ cfg log e, env.UnmarshalCmdConfig = .ok cfg → cfg.Log = some log →
      env.SetUp log = some e →
      (cmd.startup env ctx).steps = [(.UnmarshalCmdConfig, none), (.SetUp, some e)] ∧
      (cmd.startup env ctx).sent = [e]) ∧
    (∀ cfg log e, env.UnmarshalCmdConfig = .ok cfg → cfg.Log = some log →
      env.SetUp log = none →
      service.New env.chainIDs env.chainclientNew ctx cfg = .error e →
      (cmd.startup env ctx).steps =
        [(.UnmarshalCmdConfig, none), (.SetUp, none), (.New, some e)] ∧
      (cmd.startup env ctx).sent = [e]) ∧
    (∀ cfg log s e, env.UnmarshalCmdConfig = .ok cfg → cfg.Log = some log →
      env.SetUp log = none →
      service.New env.chainIDs env.chainclientNew ctx cfg = .ok s →
      (s.Start env.PreloadCollections).2 = some e →
      (cmd.startup env ctx).steps =
        [(.UnmarshalCmdConfig, none), (.SetUp, none), (.New, none), (.Start, some e)] ∧
      (cmd.startup env ctx).sent = [e]) ∧
    (∀ cfg log s, env.UnmarshalCmdConfig = .ok cfg → cfg.Log = some log →
      env.SetUp log = none →
      service.New env.chainIDs env.chainclientNew ctx cfg = .ok s →
      (s.Start env.PreloadCollections).2 = none →
      (cmd.startup env ctx).steps =
        [(.UnmarshalCmdConfig, none), (.SetUp, none), (.New, none), (.Start, none)] ∧
      (cmd.startup env ctx).sent = []) := by
  refine ⟨?_, ?_, ?_, ?_, ?_⟩
  · intro e h1
    simp [cmd.startup, h1]
  · intro cfg log e h1 h2 h3
    simp [cmd.startup, h1, h2, h3]
  · intro cfg log e h1 h2 h3 h4
    simp [cmd.startup, h1, h2, h3, h4]
  · intro cfg log s e h1 h2 h3 h4 h5
    have h6 : s.Start env.PreloadCollections = ((s.Start env.PreloadCollections).1, some e) := by
      rw [← h5]
    unfold cmd.startup
    simp only [h1, h2, h3, h4]
    rw [h6]
    simp
  · intro cfg log s h1 h2 h3 h4 h5
    have h6 : s.Start env.PreloadCollections = ((s.Start env.PreloadCollections).1, none) := by
      rw [← h5]
    unfold cmd.startup
    simp only [h1, h2, h3, h4]
    rw [h6]
    by_cases hp : cfg.Monitor.PprofEnable = true <;> simp [hp]

/-- Once the goroutine has sent `e`, `Run` calls `cancel()`, through the error
case of the `select` or through the signal case. -/
theorem run_cancels_after_send (env : cmd.Env) (incoming : Option cmd.Signal)
    (signalFirst : Bool) (e : GoError) (h : (cmd.startup env { id := 0 }).sent = [e]) :
    (cmd.Run env incoming signalFirst).cancelledAfter incoming e := by
  have hend : (cmd.startup env { id := 0 }).ending = .returned := by
    rcases startup_sent_cases env { id := 0 } with h0 | ⟨e0, _, hend⟩
    · rw [h0] at h
      cases h
    · exact hend
  unfold cmd.RunResult.cancelledAfter cmd.Run
  simp only [h, hend, List.head?_cons]
  cases incoming with
  | none => simp
  | some sig =>
    by_cases hs : sig ∈ cmd.notified
    · have hs2 : sig = .SIGINT ∨ sig = .SIGTERM := by
        simpa [cmd.notified] using hs
      cases signalFirst <;> rcases hs2 with h2 | h2 <;> subst h2 <;> simp [cmd.notified]
    · simp [hs]

/-- C9: the start-up goroutine runs `UnmarshalCmdConfig`, `SetUp`, `New`,
`Start` in this order and stops at the first that fails: the steps invoked end
with the failing one, and its error is the one value sent on `onSyncExit`; if
none fails all four are invoked and nothing is sent.  At most one value is
ever sent.  `Run` starts this goroutine, and whichever of the four steps is
the first to fail, with error `e`, `Run` calls `cancel()` after `e` was sent;
when nothing is sent and no signal arrives, `Run` does not call `cancel()`. -/
theorem startup_stops_at_first_failure (env : cmd.Env) (ctx : service.Context) :
    (∀ e, env.UnmarshalCmdConfig = .error e →
      (cmd.startup env ctx).steps = [(.UnmarshalCmdConfig, some e)] ∧
      (cmd.startup env ctx).sent = [e]) ∧
    (∀ cfg log e, env.UnmarshalCmdConfig = .ok cfg → cfg.Log = some log →
      env.SetUp log = some e →
      (cmd.startup env ctx).steps = [(.UnmarshalCmdConfig, none), (.SetUp, some e)] ∧
      (cmd.startup env ctx).sent = [e]) ∧
    (∀ cfg log e, env.UnmarshalCmdConfig = .ok cfg → cfg.Log = some log →
      env.SetUp log = none →
      service.New env.chainIDs env.chainclientNew ctx cfg = .error e →
      (cmd.startup env ctx).steps =
        [(.UnmarshalCmdConfig, none), (.SetUp, none), (.New, some e)] ∧
      (cmd.startup env ctx).sent = [e]) ∧
    (∀ cfg log s e, env.UnmarshalCmdConfig = .ok cfg → cfg.Log = some log →
      env.SetUp log = none →
      service.New env.chainIDs env.chainclientNew ctx cfg = .ok s →
      (s.Start env.PreloadCollections).2 = some e →
      (cmd.startup env ctx).steps =
        [(.UnmarshalCmdConfig, none), (.SetUp, none), (.New, none), (.Start, some e)] ∧
      (cmd.startup env ctx).sent = [e]) ∧
    (∀ cfg log s, env.UnmarshalCmdConfig = .ok cfg → cfg.Log = some log →
      env.SetUp log = none →
      service.New env.chainIDs env.chainclientNew ctx cfg = .ok s →
      (s.Start env.PreloadCollections).2 = none →
      (cmd.startup env ctx).steps =
        [(.UnmarshalCmdConfig, none), (.SetUp, none), (.New, none), (.Start, none)] ∧
      (cmd.startup env ctx).sent = []) ∧
    (cmd.startup env ctx).sent.length ≤ 1 ∧
    (∀ incoming signalFirst, (cmd.Run env incoming signalFirst).goroutine.sent ≠ [] →
      (cmd.Run env incoming signalFirst).cancelCalled = true) ∧
    (∀ incoming signalFirst,
      (cmd.Run env incoming signalFirst).goroutine = cmd.startup env { id := 0 }) ∧
    (∀ e, env.UnmarshalCmdConfig = .error e → ∀ incoming signalFirst,
      (cmd.Run env incoming signalFirst).cancelledAfter incoming e) ∧
    (∀ cfg log e, env.UnmarshalCmdConfig = .ok cfg → cfg.Log = some log →
      env.SetUp log = some e → ∀ incoming signalFirst,
      (cmd.Run env incoming signalFirst).cancelledAfter incoming e) ∧
    (∀ cfg log e, env.UnmarshalCmdConfig = .ok cfg → cfg.Log = some log →
      env.SetUp log = none →
      service.New env.chainIDs env.chainclientNew { id := 0 } cfg = .error e →
      ∀ incoming signalFirst,
      (cmd.Run env incoming signalFirst).cancelledAfter incoming e) ∧
    (∀ cfg log s e, env.UnmarshalCmdConfig = .ok cfg → cfg.Log = some log →
      env.SetUp log = none →
      service.New env.chainIDs env.chainclientNew { id := 0 } cfg = .ok s →
      (s.Start env.PreloadCollections).2 = some e → ∀ incoming signalFirst,
      (cmd.Run env incoming signalFirst).cancelledAfter incoming e) ∧
    (∀ signalFirst, (cmd.startup env { id := 0 }).sent = [] →
      (cmd.Run env none signalFirst).cancelCalled = false ∧
      (cmd.Run env none signalFirst).exit = none) := by
  have hs := startup_steps env ctx
  have h0 := startup_steps env { id := 0 }
  refine ⟨hs.1, hs.2.1, hs.2.2.1, hs.2.2.2.1, hs.2.2.2.2, ?_, ?_, ?_, ?_, ?_, ?_, ?_, ?_⟩
  · rcases startup_sent_cases env ctx with h | ⟨e, h, _⟩ <;> simp [h]
  · intro incoming signalFirst hsent
    have hg : (cmd.Run env incoming signalFirst).goroutine = cmd.startup env { id := 0 } := rfl
    rw [hg] at hsent
    rcases startup_sent_cases env { id := 0 } with h | ⟨e, h, _⟩
    · exact absurd h hsent
    · exact (run_cancels_after_send env incoming signalFirst e h).2.1
  · intro incoming signalFirst
    rfl
  · intro e h1 incoming signalFirst
    exact run_cancels_after_send env incoming signalFirst e (h0.1 e h1).2
  · intro cfg log e h1 h2 h3 incoming signalFirst
    exact run_cancels_after_send env incoming signalFirst e (h0.2.1 cfg log e h1 h2 h3).2
  · intro cfg log e h1 h2 h3 h4 incoming signalFirst
    exact run_cancels_after_send env incoming signalFirst e (h0.2.2.1 cfg log e h1 h2 h3 h4).2
  · intro cfg log s e h1 h2 h3 h4 h5 incoming signalFirst
    exact run_cancels_after_send env incoming signalFirst e
      (h0.2.2.2.1 cfg log s e h1 h2 h3 h4 h5).2
  · intro signalFirst hsent
    unfold cmd.Run
    simp only [hsent, List.head?_nil]
    by_cases hp : (cmd.startup env { id := 0 }).ending = .panicked <;> simp [hp]

/-- Witness of C9: the preload fails, so `Start` is the first step to fail;
its error is the one value sent, and `Run` calls `cancel()` through the error
case of the `select`. -/
theorem startup_stops_at_first_failure_witness :
    ((cmd.startup cmd.sampleEnvPreloadDown { id := 0 }).steps =
      [(.UnmarshalCmdConfig, none), (.SetUp, none), (.New, none),
       (.Start, some (.wrap (.base "db unreachable")
          "failed on preload collection to filter"))] ∧
    (cmd.startup cmd.sampleEnvPreloadDown { id := 0 }).sent =
      [.wrap (.base "db unreachable") "failed on preload collection to filter"]) ∧
    (cmd.Run cmd.sampleEnvPreloadDown none false).cancelledAfter none
      (.wrap (.base "db unreachable") "failed on preload collection to filter") :=
  have hnew : service.New cmd.sampleEnvPreloadDown.chainIDs
      cmd.sampleEnvPreloadDown.chainclientNew { id := 0 }
      (service.sampleConfig 11155111 "sepolia" false) = .ok service.sampleService := by
    simp [service.New, cmd.sampleEnvPreloadDown, service.clientAlways,
      service.sampleService, service.sampleIndexer, service.sampleManager,
      service.sampleConfig, service.ChainIDs.standard]
  have h := startup_stops_at_first_failure cmd.sampleEnvPreloadDown { id := 0 }
  ⟨h.2.2.2.1 (service.sampleConfig 11155111 "sepolia" false) "info" service.sampleService
      (.wrap (.base "db unreachable") "failed on preload collection to filter")
      rfl rfl rfl hnew rfl,
    h.2.2.2.2.2.2.2.2.2.2.2.1 (service.sampleConfig 11155111 "sepolia" false) "info"
      service.sampleService
      (.wrap (.base "db unreachable") "failed on preload collection to filter")
      rfl rfl rfl hnew rfl none false⟩

/-! ## Theorems: backend main.go -/

/-- The chain check of `main` passes exactly when every entry has a non-zero
`ChainID` and a non-empty `Name`. -/
theorem checkChains_eq_none_iff (l : List backend.ChainSupported) :
    backend.checkChains l = none ↔ ∀ ch ∈ l, ch.ChainID ≠ 0 ∧ ch.Name ≠ "" := by
  induction l with
  | nil => simp [backend.checkChains]
  | cons c rest ih =>
    unfold backend.checkChains
    by_cases hc : c.ChainID = 0 ∨ c.Name = ""
    · simp only [hc, ↓reduceIte, List.mem_cons, forall_eq_or_imp]
      constructor
      · intro h
        cases h
      · rintro ⟨⟨h1, h2⟩, _⟩
        rcases hc with h | h
        · exact absurd h h1
        · exact absurd h h2
    · simp only [hc, ↓reduceIte, List.mem_cons, forall_eq_or_imp, ih]
      constructor
      · intro h
        exact ⟨⟨fun h0 => hc (Or.inl h0), fun h0 => hc (Or.inr h0)⟩, h⟩
      · intro h
        exact h.2

/-- The only panic the chain check raises is the string
`invalid chain_suffix config`. -/
theorem checkChains_eq_some (l : List backend.ChainSupported) (p : backend.PanicValue)
    (h : backend.checkChains l = some p) : p = .str "invalid chain_suffix config" := by
  induction l with
  | nil => simp [backend.checkChains] at h
  | cons c rest ih =>
    unfold backend.checkChains at h
    by_cases hc : c.ChainID = 0 ∨ c.Name = ""
    · simp only [hc, ↓reduceIte, Option.some.injEq] at h
      exact h.symm
    · simp only [hc, ↓reduceIte] at h
      exact ih h

/-- C10: for every configuration that is read, `main` panics with
`invalid chain_suffix config` if and only if some entry of `ChainSupported`
has `ChainID = 0` or `Name = ""` (so an empty list passes), and
`NewServiceContext` is called if and only if every entry has a non-zero
`ChainID` and a non-empty `Name`. -/
theorem main_validates_chains_first (env : backend.Env) (confFlag : Option String)
    (c : backend.Config)
    (hconf : env.UnmarshalConfig (confFlag.getD backend.defaultConfigPath) = .ok c) :
    ((backend.main env confFlag).2 = some (.str "invalid chain_suffix config") ↔
      ∃ ch ∈ c.ChainSupported, ch.ChainID = 0 ∨ ch.Name = "") ∧
    ((∃ call ∈ (backend.main env confFlag).1, call.isNewServiceContext = true) ↔
      ∀ ch ∈ c.ChainSupported, ch.ChainID ≠ 0 ∧ ch.Name ≠ "") ∧
    (c.ChainSupported = [] →
      (backend.main env confFlag).2 ≠ some (.str "invalid chain_suffix config")) := by
  have hbad : (¬ ∀ ch ∈ c.ChainSupported, ch.ChainID ≠ 0 ∧ ch.Name ≠ "") ↔
      ∃ ch ∈ c.ChainSupported, ch.ChainID = 0 ∨ ch.Name = "" := by
    constructor
    · intro h
      by_contra hne
      apply h
      intro ch hch
      constructor
      · intro h0
        exact hne ⟨ch, hch, Or.inl h0⟩
      · intro h0
        exact hne ⟨ch, hch, Or.inr h0⟩
    · rintro ⟨ch, hch, h0⟩ hall
      rcases h0 with h0 | h0
      · exact (hall ch hch).1 h0
      · exact (hall ch hch).2 h0
  have key : ((backend.main env confFlag).2 = some (.str "invalid chain_suffix config") ↔
        backend.checkChains c.ChainSupported ≠ none) ∧
      ((∃ call ∈ (backend.main env confFlag).1, call.isNewServiceContext = true) ↔
        backend.checkChains c.ChainSupported = none) := by
    unfold backend.main
    simp only [hconf]
    cases hcheck : backend.checkChains c.ChainSupported with
    | some p =>
      have hp := checkChains_eq_some _ _ hcheck
      subst hp
      simp [backend.MainCall.isNewServiceContext]
    | none =>
      cases hctx : backend.NewServiceContext env c with
      | error err => simp [backend.MainCall.isNewServiceContext]
      | ok serverCtx =>
        cases hplat : env.NewPlatform c serverCtx <;>
          simp [hplat, backend.MainCall.isNewServiceContext]
  refine ⟨?_, ?_, ?_⟩
  · rw [key.1, ← hbad, ← checkChains_eq_none_iff]
  · rw [key.2, checkChains_eq_none_iff]
  · intro hnil hpanic
    have h := key.1.mp hpanic
    rw [hnil] at h
    exact h rfl

/-- Witness of C10: a list whose only entry has `ChainID = 0` makes `main`
panic with `invalid chain_suffix config` before any service context is built. -/
theorem main_validates_chains_first_witness :
    (backend.main (backend.sampleEnv [backend.unnumberedChain]) none).2 =
      some (.str "invalid chain_suffix config") :=
  (main_validates_chains_first (backend.sampleEnv [backend.unnumberedChain]) none
    (backend.sampleConfig [backend.unnumberedChain]) rfl).1.mpr
    ⟨backend.unnumberedChain, List.mem_singleton.mpr rfl, Or.inl rfl⟩

end EasySwap
